import Mathlib

/-!
Verification of the live-data acquisition core of the Indian Economic
Dashboard (`src/streamlit_app.py`): the rate gate, the period filter, the
result cache, the Yahoo market adapter and the snapshot assembler, shallowly
embedded over exact rationals.

Modelling conventions: wall-clock instants are rationals (seconds for the
rate gate and the cache, a months-scaled axis for the period filter, since
pandas timestamps are totally ordered and `pd.DateOffset(months=k)` shifts
the calendar by `k` months); `time.sleep` advances the clock by exactly the
requested duration; each statement sequence within one Python call is
instantaneous apart from the sleep.  Python floats are modelled as exact
rationals, Python dicts with a fixed key set as records of `Option`s
(a key is `some` when present), and Python dict truthiness as "some key
is present".
-/

namespace Dashboard

/-! ### Rate gate: `ComprehensiveDataFetcher.rate_limit_check` (src lines 39-66) -/

/-- The `self.api_intervals` dict (lines 41-46) combined with the
`.get(api_type, 1)` default used at line 61. -/
def api_intervals (api_type : String) : ℚ :=
  if api_type = "alpha" then 12
  else if api_type = "fred" then 1
  else if api_type = "yahoo" then 1/10
  else if api_type = "worldbank" then 1
  else 1

/-- The `self.last_api_call` dict (line 40): a map from api type to the
wall-clock time recorded at line 66 after the call. -/
structure RateState where
  last_api_call : String → Option ℚ

/-- Lines 57-66.  `current_time = time.time()`, `last_call =
self.last_api_call.get(api_type, 0)`; when less than `interval` has elapsed
the caller sleeps for the remaining delta.  The model returns the wall-clock
time at which the call returns (current time plus the sleep, if any), and the
updated state in which `self.last_api_call[api_type] = time.time()` records
that return time. -/
def rate_limit_check (st : RateState) (api_type : String) (current_time : ℚ) :
    ℚ × RateState :=
  let last_call := (st.last_api_call api_type).getD 0
  let interval := api_intervals api_type
  let ret :=
    if current_time - last_call < interval then
      current_time + (interval - (current_time - last_call))
    else current_time
  (ret, ⟨fun a => if a = api_type then some ret else st.last_api_call a⟩)

lemma rate_limit_check_records (st : RateState) (api_type : String) (c : ℚ) :
    (rate_limit_check st api_type c).2.last_api_call api_type
      = some (rate_limit_check st api_type c).1 := by
  unfold rate_limit_check
  simp

lemma rate_limit_check_lower (st : RateState) (api_type : String) (r c : ℚ)
    (hst : st.last_api_call api_type = some r) (_hrc : r ≤ c) :
    r + api_intervals api_type ≤ (rate_limit_check st api_type c).1 := by
  unfold rate_limit_check
  simp only [hst, Option.getD_some]
  split
  · linarith
  · rename_i hlt
    push_neg at hlt
    linarith

/-! ### Period filter: `IndiaEconomicFactorsTracker.filter_by_period`
(src lines 394-404) and the `self.periods` dict (lines 273-278) -/

/-- One row of the pandas dataframe handed to `filter_by_period`: a `date`
column (a point on the months-scaled time axis) and the remaining numeric
columns. -/
structure PRow where
  date : ℚ
  row : List ℚ
deriving DecidableEq, Repr

/-- The `self.periods` dict of lines 273-278 together with the
`period_name not in self.periods` membership test of line 396. -/
def periodsLookup (period_name : String) : Option (ℕ × ℕ) :=
  if period_name = "0-3 months" then some (0, 3)
  else if period_name = "3-6 months" then some (3, 6)
  else if period_name = "6-9 months" then some (6, 9)
  else if period_name = "More than a Year" then some (12, 24)
  else none

/-- Lines 394-404: unknown labels pass the dataframe through; otherwise the
rows are restricted to `now - end_months ≤ date ≤ now - start_months`,
keeping the original order (a pandas boolean-mask selection). -/
def filter_by_period (now : ℚ) (df : List PRow) (period_name : String) :
    List PRow :=
  match periodsLookup period_name with
  | none => df
  | some (start_months, end_months) =>
    let start_date := now - (end_months : ℚ)
    let end_date := now - (start_months : ℚ)
    df.filter (fun r => decide (start_date ≤ r.date) && decide (r.date ≤ end_date))

/-! ### Result cache, modelled from the spec -/

/-- Modelled from the spec: `(value, inserted_at, ttl)`, valid while
`now - inserted_at < ttl` (spec section 4.3).  The cache implementation
itself is the `st.cache_data(ttl=...)` decorator (library code applied at
src lines 68, 101, 176 and 282), which is not part of this repository. -/
structure CacheEntry (α : Type) where
  value : α
  insertedAt : ℚ
deriving DecidableEq, Repr

/-- Result of one cache-wrapped call: the value returned to the caller, the
cache entry afterwards, and whether the underlying compute function ran. -/
structure CacheResult (α : Type) where
  value : α
  entry : Option (CacheEntry α)
  invoked : Bool
deriving DecidableEq, Repr

/-- Modelled from the spec: `get_or_compute(key, ttl, compute_fn)` for one
fixed key (spec section 4.3).  If a live entry exists and has not expired,
its value is returned without invoking `compute_fn`; otherwise `compute_fn`
runs and its result is stored with `inserted_at = now`. -/
def get_or_compute {α : Type} (entry : Option (CacheEntry α)) (ttl now : ℚ)
    (compute_fn : Unit → α) : CacheResult α :=
  match entry with
  | some e =>
    if now - e.insertedAt < ttl then ⟨e.value, some e, false⟩
    else ⟨compute_fn (), some ⟨compute_fn (), now⟩, true⟩
  | none => ⟨compute_fn (), some ⟨compute_fn (), now⟩, true⟩

/-! ### Claim theorems for the rate gate, period filter and cache -/

/-- Claim C6: the period filter is idempotent — for every dataframe, every
period label and a fixed reference time, filtering twice with the same label
equals filtering once. -/
theorem C6_filter_idempotent (now : ℚ) (df : List PRow) (L : String) :
    filter_by_period now (filter_by_period now df L) L
      = filter_by_period now df L := by
  unfold filter_by_period
  cases periodsLookup L with
  | none => rfl
  | some p =>
    obtain ⟨s, e⟩ := p
    simp [List.filter_filter]

/-- Claim C7: for every label that is not one of the four configured period
labels, `filter_by_period` returns the dataframe unchanged — a pass-through,
not an error. -/
theorem C7_unknown_label_passthrough (now : ℚ) (df : List PRow) (L : String)
    (h1 : L ≠ "0-3 months") (h2 : L ≠ "3-6 months")
    (h3 : L ≠ "6-9 months") (h4 : L ≠ "More than a Year") :
    filter_by_period now df L = df := by
  unfold filter_by_period periodsLookup
  simp [h1, h2, h3, h4]

theorem C7_witness :
    filter_by_period 0 [⟨(5 : ℚ), []⟩] "unknown-label" = [⟨(5 : ℚ), []⟩] :=
  C7_unknown_label_passthrough 0 [⟨(5 : ℚ), []⟩] "unknown-label"
    (by decide) (by decide) (by decide) (by decide)

/-- Claim C8: two consecutive `rate_limit_check` calls for the same source
are separated by at least that source's configured minimum interval,
measured at the call-return boundary: when the second call starts no earlier
than the first call returned, its return time is at least the first return
time plus `api_intervals api_type` (the second call sleeps for the remaining
delta when invoked too early, and returns immediately otherwise). -/
theorem C8_rate_gate_min_interval (st : RateState) (api_type : String)
    (c1 c2 : ℚ) (h : (rate_limit_check st api_type c1).1 ≤ c2) :
    (rate_limit_check st api_type c1).1 + api_intervals api_type
      ≤ (rate_limit_check (rate_limit_check st api_type c1).2 api_type c2).1 :=
  rate_limit_check_lower (rate_limit_check st api_type c1).2 api_type
    (rate_limit_check st api_type c1).1 c2
    (rate_limit_check_records st api_type c1) h

theorem C8_witness :
    (rate_limit_check ⟨fun _ => none⟩ "yahoo" 0).1 + api_intervals "yahoo"
      ≤ (rate_limit_check (rate_limit_check ⟨fun _ => none⟩ "yahoo" 0).2
          "yahoo" 1).1 :=
  C8_rate_gate_min_interval ⟨fun _ => none⟩ "yahoo" 0 1
    (by simp [rate_limit_check, api_intervals]; norm_num)

/-- Claim C9 (spec-modelled): starting from an empty cache, the first
cache-wrapped call invokes the compute function and stores the result; a
second call within the TTL window returns the stored value without invoking
it again (so the two calls invoke it exactly once); a call made once the TTL
has elapsed since the entry was stored invokes the compute function again. -/
theorem C9_cache_ttl {α : Type} (ttl t1 t2 t3 : ℚ) (compute_fn : Unit → α)
    (h2 : t2 - t1 < ttl) (h3 : ttl ≤ t3 - t1) :
    (get_or_compute none ttl t1 compute_fn).invoked = true
    ∧ (get_or_compute (get_or_compute none ttl t1 compute_fn).entry ttl t2
        compute_fn).invoked = false
    ∧ (get_or_compute (get_or_compute none ttl t1 compute_fn).entry ttl t2
        compute_fn).value = (get_or_compute none ttl t1 compute_fn).value
    ∧ (get_or_compute (get_or_compute none ttl t1 compute_fn).entry ttl t3
        compute_fn).invoked = true := by
  refine ⟨rfl, ?_, ?_, ?_⟩ <;>
    simp [get_or_compute, h2, not_lt.mpr h3]

theorem C9_witness :
    (get_or_compute none 10 0 (fun _ => (7 : ℕ))).invoked = true
    ∧ (get_or_compute (get_or_compute none 10 0 (fun _ => (7 : ℕ))).entry 10 5
        (fun _ => (7 : ℕ))).invoked = false
    ∧ (get_or_compute (get_or_compute none 10 0 (fun _ => (7 : ℕ))).entry 10 5
        (fun _ => (7 : ℕ))).value
        = (get_or_compute none 10 0 (fun _ => (7 : ℕ))).value
    ∧ (get_or_compute (get_or_compute none 10 0 (fun _ => (7 : ℕ))).entry 10 12
        (fun _ => (7 : ℕ))).invoked = true :=
  C9_cache_ttl 10 0 5 12 (fun _ => (7 : ℕ)) (by norm_num) (by norm_num)

/-! ### Daily usage counters: `st.session_state.api_usage` (src lines 48-55) -/

/-- The `st.session_state.api_usage` dict initialised at lines 49-55: per-day
call counters and the date stored under `last_reset` (modelled as an integer
day number). -/
structure ApiUsage where
  alpha_calls : ℕ
  fred_calls : ℕ
  yahoo_calls : ℕ
  last_reset : ℤ
deriving DecidableEq, Repr

/-! ### Yahoo market adapter: `get_yahoo_finance_data` (src lines 68-99) -/

/-- The dict returned by `get_yahoo_finance_data`: each key is present
exactly when the corresponding 5-day price history was non-empty (lines
74-92); the whole dict is empty when the `try` block raised (lines 97-99). -/
structure MarketData where
  nifty : Option ℚ
  sensex : Option ℚ
  exchange_rate : Option ℚ
deriving DecidableEq, Repr

/-- Python truthiness of the `data` dict (`if yahoo_market_data:` at
line 224): true exactly when at least one key is present. -/
def MarketData.isNonempty (m : MarketData) : Bool :=
  m.nifty.isSome || m.sensex.isSome || m.exchange_rate.isSome

/-- The adapter outcome "succeeded": all three histories were non-empty, so
all three keys are in the returned dict. -/
def MarketData.isFull (m : MarketData) : Bool :=
  m.nifty.isSome && m.sensex.isSome && m.exchange_rate.isSome

/-- The adapter outcome "returned an empty dict": every history was empty,
or the `try` block raised (lines 97-99 return `{}`). -/
def MarketData.isEmptyDict (m : MarketData) : Bool :=
  m.nifty.isNone && m.sensex.isNone && m.exchange_rate.isNone

/-- Upstream behaviour seen by one run of `get_yahoo_finance_data`: the last
close of each 5-day history (`none` = empty history), and whether the fetch
raises.  A raise is modelled as occurring at the first ticker request. -/
structure YahooMarketEnv where
  niftyClose : Option ℚ
  sensexClose : Option ℚ
  usdinrClose : Option ℚ
  raises : Bool
deriving DecidableEq, Repr

/-- Observable outcome of one `get_yahoo_finance_data` run: the returned
dict, the number of network requests issued, the usage counters afterwards
and the rate-gate state afterwards. -/
structure YahooFetchResult where
  result : MarketData
  networkCalls : ℕ
  usage : ApiUsage
  rate : RateState

/-- Lines 68-99.  The call first passes the rate gate
(`rate_limit_check('yahoo')`, line 72), then issues the three ticker
requests, then increments `st.session_state.api_usage['yahoo_calls']` by 3
(line 94).  On an exception it returns `{}` and skips the increment.  The
function never consults the counters and has no failure result other than
the empty dict. -/
def get_yahoo_finance_data (env : YahooMarketEnv) (usage : ApiUsage)
    (rate : RateState) (now : ℚ) : YahooFetchResult :=
  let rl := rate_limit_check rate "yahoo" now
  if env.raises then
    { result := ⟨none, none, none⟩, networkCalls := 1, usage := usage,
      rate := rl.2 }
  else
    { result := ⟨env.niftyClose, env.sensexClose, env.usdinrClose⟩,
      networkCalls := 3,
      usage := { usage with yahoo_calls := usage.yahoo_calls + 3 },
      rate := rl.2 }

/-! ### Commodity adapter result: `get_yahoo_commodity_futures`
(src lines 101-174) returns a dict with these seven keys; on a weekday a key
can be missing when that ticker raised (the `continue` at line 158), while
the weekend branch and the outer `except` branch return all seven constants. -/

structure CommodityData where
  gold : Option ℚ
  silver : Option ℚ
  crude_oil : Option ℚ
  sugar : Option ℚ
  coffee : Option ℚ
  wheat : Option ℚ
  corn : Option ℚ
deriving DecidableEq, Repr

/-- Python truthiness of the commodity dict (`if yahoo_commodities:` at
line 237). -/
def CommodityData.isNonempty (c : CommodityData) : Bool :=
  c.gold.isSome || c.silver.isSome || c.crude_oil.isSome || c.sugar.isSome
    || c.coffee.isSome || c.wheat.isSome || c.corn.isSome

/-- All seven keys present: a successful weekday run, the weekend branch
(lines 108-119), and the outer `except` branch (lines 163-174) all have this
shape. -/
def CommodityData.isFull (c : CommodityData) : Bool :=
  c.gold.isSome && c.silver.isSome && c.crude_oil.isSome && c.sugar.isSome
    && c.coffee.isSome && c.wheat.isSome && c.corn.isSome

/-- The empty dict: every per-ticker attempt raised and was skipped. -/
def CommodityData.isEmptyDict (c : CommodityData) : Bool :=
  c.gold.isNone && c.silver.isNone && c.crude_oil.isNone && c.sugar.isNone
    && c.coffee.isNone && c.wheat.isNone && c.corn.isNone

/-! ### Snapshot assembler: `get_current_accurate_data` (src lines 202-269) -/

/-- The snapshot dict.  The twenty numeric fields are `Option`s so that a
key's absence is representable (`none` = key not in the dict); the baseline
of lines 205-220 populates the ten economic fields, and the market and
commodity fields are added by the later steps.  `data_source` is written by
the final summary line 267 (it is the empty string before that). -/
structure Snapshot where
  inflation_rate : Option ℚ
  gdp_growth_rate : Option ℚ
  unemployment_rate : Option ℚ
  interest_rate : Option ℚ
  bond_yield_10y : Option ℚ
  fiscal_deficit : Option ℚ
  foreign_reserves : Option ℚ
  industrial_production : Option ℚ
  consumer_price_index : Option ℚ
  current_account_balance : Option ℚ
  exchange_rate : Option ℚ
  nifty : Option ℚ
  sensex : Option ℚ
  gold : Option ℚ
  silver : Option ℚ
  crude_oil : Option ℚ
  sugar : Option ℚ
  coffee : Option ℚ
  wheat : Option ℚ
  corn : Option ℚ
  last_updated : String
  data_sources : List String
  data_source : String
deriving DecidableEq, Repr

/-- The external observations consumed by one `get_current_accurate_data`
run: the two Yahoo adapter results, the weekend flag
(`datetime.now().weekday() >= 5`, line 239), the two World Bank fetch
results (lines 256, 261; `none` = the fetch returned `None` or raised), and
the formatted `datetime.now()` timestamp of line 218. -/
structure AssemblerInput where
  yahooMarket : MarketData
  yahooCommodities : CommodityData
  isWeekend : Bool
  wbInflation : Option ℚ
  wbGdp : Option ℚ
  nowString : String
deriving DecidableEq, Repr

/-- Python `dict.update` on one key: the key is overwritten when present in
the source dict and kept otherwise. -/
def dictUpdate (new old : Option ℚ) : Option ℚ :=
  match new with
  | some v => some v
  | none => old

/-- Lines 204-220: the corrected base data of May 31, 2025, and the initial
provenance list `['Government Data (May 2025)']`. -/
def baseline (nowString : String) : Snapshot where
  inflation_rate := some (316/100)
  gdp_growth_rate := some (65/10)
  unemployment_rate := some (51/10)
  interest_rate := some 6
  bond_yield_10y := some (618/100)
  fiscal_deficit := some (48/10)
  foreign_reserves := some 645
  industrial_production := some (1052/10)
  consumer_price_index := some (1854/10)
  current_account_balance := some (-(18/10))
  exchange_rate := none
  nifty := none
  sensex := none
  gold := none
  silver := none
  crude_oil := none
  sugar := none
  coffee := none
  wheat := none
  corn := none
  last_updated := nowString
  data_sources := ["Government Data (May 2025)"]
  data_source := ""

/-- Lines 222-233: when the market dict is truthy, `data.update(...)` and the
provenance append; otherwise the fallback constants 85.29 / 24815 / 81570. -/
def applyMarket (m : MarketData) (s : Snapshot) : Snapshot :=
  if m.isNonempty then
    { s with
      nifty := dictUpdate m.nifty s.nifty,
      sensex := dictUpdate m.sensex s.sensex,
      exchange_rate := dictUpdate m.exchange_rate s.exchange_rate,
      data_sources := s.data_sources ++ ["Yahoo Finance (Markets)"] }
  else
    { s with
      exchange_rate := some (8529/100),
      nifty := some 24815,
      sensex := some 81570 }

/-- Lines 235-253: when the commodity dict is truthy, `data.update(...)` and
the weekend-dependent provenance append; otherwise the fallback constants. -/
def applyCommodities (c : CommodityData) (weekend : Bool) (s : Snapshot) :
    Snapshot :=
  if c.isNonempty then
    { s with
      gold := dictUpdate c.gold s.gold,
      silver := dictUpdate c.silver s.silver,
      crude_oil := dictUpdate c.crude_oil s.crude_oil,
      sugar := dictUpdate c.sugar s.sugar,
      coffee := dictUpdate c.coffee s.coffee,
      wheat := dictUpdate c.wheat s.wheat,
      corn := dictUpdate c.corn s.corn,
      data_sources := s.data_sources ++
        [if weekend then "Yahoo Finance (Last Trading Day)"
         else "Yahoo Finance (Live Commodities)"] }
  else
    { s with
      gold := some (328970/100),
      silver := some (3298/100),
      crude_oil := some (7772/100),
      sugar := some (1945/100),
      coffee := some (2345/10),
      wheat := some (61225/100),
      corn := some (45675/100) }

/-- Lines 256-259: `if wb_inflation and 0 <= wb_inflation <= 15`.  Python
float truthiness makes `0.0` falsy, hence the `x ≠ 0` conjunct. -/
def applyWbInflation (o : Option ℚ) (s : Snapshot) : Snapshot :=
  match o with
  | some x =>
    if x ≠ 0 ∧ 0 ≤ x ∧ x ≤ 15 then
      { s with
        inflation_rate := some x,
        data_sources := s.data_sources ++ ["World Bank (Inflation)"] }
    else s
  | none => s

/-- Lines 261-264: `if wb_gdp and 0 <= wb_gdp <= 15`, as for inflation. -/
def applyWbGdp (o : Option ℚ) (s : Snapshot) : Snapshot :=
  match o with
  | some x =>
    if x ≠ 0 ∧ 0 ≤ x ∧ x ≤ 15 then
      { s with
        gdp_growth_rate := some x,
        data_sources := s.data_sources ++ ["World Bank (GDP)"] }
    else s
  | none => s

/-- Python `', '.join(...)`. -/
def joinComma : List String → String
  | [] => ""
  | [s] => s
  | s :: rest => s ++ ", " ++ joinComma rest

/-- Deduplication pass of Python `set(...)`; CPython iterates a set in an
unspecified order, modelled here as first-occurrence order (the provenance
list never holds duplicates, so the choice is immaterial). -/
def dedupAux : List String → List String → List String
  | _, [] => []
  | seen, s :: rest =>
    if seen.contains s then dedupAux seen rest
    else s :: dedupAux (s :: seen) rest

/-- Python `set(...)` applied to a list of strings. -/
def pySet (l : List String) : List String := dedupAux [] l

/-- Line 267: `data['data_source'] = f"Multi-source: {', '.join(set(data['data_sources']))}"`. -/
def applySummary (s : Snapshot) : Snapshot :=
  { s with data_source := "Multi-source: " ++ joinComma (pySet s.data_sources) }

/-- Lines 202-269: the whole assembler, as the composition of its sequential
mutation steps. -/
def get_current_accurate_data (i : AssemblerInput) : Snapshot :=
  applySummary
    (applyWbGdp i.wbGdp
      (applyWbInflation i.wbInflation
        (applyCommodities i.yahooCommodities i.isWeekend
          (applyMarket i.yahooMarket (baseline i.nowString)))))

/-! ### Normal form of the assembler output -/

/-- Value taken by a World-Bank-backed field: the fetched value when the
acceptance test of lines 257/262 passes, the baseline constant otherwise. -/
def wbField (o : Option ℚ) (base : ℚ) : Option ℚ :=
  match o with
  | some x => if x ≠ 0 ∧ 0 ≤ x ∧ x ≤ 15 then some x else some base
  | none => some base

/-- The provenance list produced by one assembler run. -/
def sourcesOf (i : AssemblerInput) : List String :=
  ["Government Data (May 2025)"]
    ++ (if i.yahooMarket.isNonempty then ["Yahoo Finance (Markets)"] else [])
    ++ (if i.yahooCommodities.isNonempty then
          [if i.isWeekend then "Yahoo Finance (Last Trading Day)"
           else "Yahoo Finance (Live Commodities)"]
        else [])
    ++ (match i.wbInflation with
        | some x => if x ≠ 0 ∧ 0 ≤ x ∧ x ≤ 15 then ["World Bank (Inflation)"] else []
        | none => [])
    ++ (match i.wbGdp with
        | some x => if x ≠ 0 ∧ 0 ≤ x ∧ x ≤ 15 then ["World Bank (GDP)"] else []
        | none => [])

lemma dictUpdate_none (o : Option ℚ) : dictUpdate o none = o := by
  cases o <;> rfl

set_option maxHeartbeats 1000000 in
/-- The assembler output, field by field. -/
lemma get_current_accurate_data_eq (i : AssemblerInput) :
    get_current_accurate_data i = {
      inflation_rate := wbField i.wbInflation (316/100),
      gdp_growth_rate := wbField i.wbGdp (65/10),
      unemployment_rate := some (51/10),
      interest_rate := some 6,
      bond_yield_10y := some (618/100),
      fiscal_deficit := some (48/10),
      foreign_reserves := some 645,
      industrial_production := some (1052/10),
      consumer_price_index := some (1854/10),
      current_account_balance := some (-(18/10)),
      exchange_rate := if i.yahooMarket.isNonempty then i.yahooMarket.exchange_rate
        else some (8529/100),
      nifty := if i.yahooMarket.isNonempty then i.yahooMarket.nifty
        else some 24815,
      sensex := if i.yahooMarket.isNonempty then i.yahooMarket.sensex
        else some 81570,
      gold := if i.yahooCommodities.isNonempty then i.yahooCommodities.gold
        else some (328970/100),
      silver := if i.yahooCommodities.isNonempty then i.yahooCommodities.silver
        else some (3298/100),
      crude_oil := if i.yahooCommodities.isNonempty then i.yahooCommodities.crude_oil
        else some (7772/100),
      sugar := if i.yahooCommodities.isNonempty then i.yahooCommodities.sugar
        else some (1945/100),
      coffee := if i.yahooCommodities.isNonempty then i.yahooCommodities.coffee
        else some (2345/10),
      wheat := if i.yahooCommodities.isNonempty then i.yahooCommodities.wheat
        else some (61225/100),
      corn := if i.yahooCommodities.isNonempty then i.yahooCommodities.corn
        else some (45675/100),
      last_updated := i.nowString,
      data_sources := sourcesOf i,
      data_source := "Multi-source: " ++ joinComma (pySet (sourcesOf i)) } := by
  obtain ⟨m, c, wk, wi, wg, ts⟩ := i
  cases hm : m.isNonempty <;> cases hc : c.isNonempty <;>
    cases wi <;> cases wg <;>
      simp only [get_current_accurate_data, applySummary, applyWbGdp,
        applyWbInflation, applyCommodities, applyMarket, baseline, sourcesOf,
        wbField, hm, hc, dictUpdate_none, Bool.false_eq_true, if_false,
        if_true, Bool.true_eq_false] <;>
      (try split_ifs) <;>
        simp_all [dictUpdate_none, List.append_nil, List.nil_append,
          List.append_assoc]

/-! ### Helper lemmas about adapter-outcome shapes -/

lemma wbField_isSome (o : Option ℚ) (b : ℚ) : (wbField o b).isSome = true := by
  cases o with
  | none => rfl
  | some x => by_cases h : x ≠ 0 ∧ 0 ≤ x ∧ x ≤ 15 <;> simp [wbField, h]

lemma market_full_fields (m : MarketData) (h : m.isFull = true) :
    m.nifty.isSome = true ∧ m.sensex.isSome = true
      ∧ m.exchange_rate.isSome = true := by
  simp only [MarketData.isFull, Bool.and_eq_true] at h
  exact ⟨h.1.1, h.1.2, h.2⟩

lemma market_isNonempty_of_isFull (m : MarketData) (h : m.isFull = true) :
    m.isNonempty = true := by
  obtain ⟨h1, _, _⟩ := market_full_fields m h
  simp [MarketData.isNonempty, h1]

lemma market_not_isNonempty_of_empty (m : MarketData) (h : m.isEmptyDict = true) :
    m.isNonempty = false := by
  simp only [MarketData.isEmptyDict, Bool.and_eq_true,
    Option.isNone_iff_eq_none] at h
  simp [MarketData.isNonempty, h.1.1, h.1.2, h.2]

lemma commodity_full_fields (c : CommodityData) (h : c.isFull = true) :
    c.gold.isSome = true ∧ c.silver.isSome = true ∧ c.crude_oil.isSome = true
      ∧ c.sugar.isSome = true ∧ c.coffee.isSome = true
      ∧ c.wheat.isSome = true ∧ c.corn.isSome = true := by
  simp only [CommodityData.isFull, Bool.and_eq_true] at h
  exact ⟨h.1.1.1.1.1.1, h.1.1.1.1.1.2, h.1.1.1.1.2, h.1.1.1.2, h.1.1.2,
    h.1.2, h.2⟩

lemma commodity_isNonempty_of_isFull (c : CommodityData) (h : c.isFull = true) :
    c.isNonempty = true := by
  obtain ⟨h1, _, _, _, _, _, _⟩ := commodity_full_fields c h
  simp [CommodityData.isNonempty, h1]

lemma commodity_not_isNonempty_of_empty (c : CommodityData)
    (h : c.isEmptyDict = true) : c.isNonempty = false := by
  simp only [CommodityData.isEmptyDict, Bool.and_eq_true,
    Option.isNone_iff_eq_none] at h
  simp [CommodityData.isNonempty, h.1.1.1.1.1.1, h.1.1.1.1.1.2, h.1.1.1.1.2,
    h.1.1.1.2, h.1.1.2, h.1.2, h.2]

/-! ### Display-layer field coverage -/

/-- All twenty numeric fields read by the display layer
(`create_live_metrics_dashboard`, src lines 406-652) are present in the
snapshot dict. -/
def Snapshot.allRequiredPresent (s : Snapshot) : Bool :=
  s.inflation_rate.isSome && s.gdp_growth_rate.isSome
    && s.unemployment_rate.isSome && s.interest_rate.isSome
    && s.bond_yield_10y.isSome && s.fiscal_deficit.isSome
    && s.foreign_reserves.isSome && s.industrial_production.isSome
    && s.consumer_price_index.isSome && s.current_account_balance.isSome
    && s.exchange_rate.isSome && s.nifty.isSome && s.sensex.isSome
    && s.gold.isSome && s.silver.isSome && s.crude_oil.isSome
    && s.sugar.isSome && s.coffee.isSome && s.wheat.isSome && s.corn.isSome

/-- The twenty numeric snapshot fields, in display order. -/
def Snapshot.numericFields (s : Snapshot) : List (Option ℚ) :=
  [s.inflation_rate, s.gdp_growth_rate, s.unemployment_rate, s.interest_rate,
   s.bond_yield_10y, s.fiscal_deficit, s.foreign_reserves,
   s.industrial_production, s.consumer_price_index, s.current_account_balance,
   s.exchange_rate, s.nifty, s.sensex, s.gold, s.silver, s.crude_oil,
   s.sugar, s.coffee, s.wheat, s.corn]

/-- The numeric fields of an all-fallback snapshot: exactly the baseline
constants of lines 205-216, 229-233 and 245-253, unperturbed. -/
def fallbackNumericFields : List (Option ℚ) :=
  [some (316/100), some (65/10), some (51/10), some 6, some (618/100),
   some (48/10), some 645, some (1052/10), some (1854/10), some (-(18/10)),
   some (8529/100), some 24815, some 81570, some (328970/100),
   some (3298/100), some (7772/100), some (1945/100), some (2345/10),
   some (61225/100), some (45675/100)]

lemma numericFields_of_allFail (i : AssemblerInput)
    (h1 : i.yahooMarket.isNonempty = false)
    (h2 : i.yahooCommodities.isNonempty = false)
    (h3 : i.wbInflation = none) (h4 : i.wbGdp = none) :
    (get_current_accurate_data i).numericFields = fallbackNumericFields := by
  rw [get_current_accurate_data_eq]
  simp [Snapshot.numericFields, fallbackNumericFields, wbField, h1, h2, h3, h4]

/-! ### Concrete scenario inputs -/

def emptyMarket : MarketData := ⟨none, none, none⟩

def emptyCommodities : CommodityData :=
  ⟨none, none, none, none, none, none, none⟩

/-- A run in which every adapter failed or returned nothing. -/
def allFailInput : AssemblerInput :=
  ⟨emptyMarket, emptyCommodities, false, none, none, "2025-05-31 12:00:00"⟩

/-- The market adapter returns an exchange rate of 150.0, far outside the
plausible band [70, 95]. -/
def c2Market : MarketData := ⟨some 24800, some 81500, some 150⟩

def c2Input : AssemblerInput :=
  ⟨c2Market, emptyCommodities, false, none, none, "2025-05-31 12:00:00"⟩

/-- Upstream responding normally to the three market ticker requests. -/
def c3Env : YahooMarketEnv := ⟨some 24815, some 81570, some (8529/100), false⟩

/-- Usage counters already at 900 yahoo calls for the day (at or beyond
every ceiling the spec mentions). -/
def c3Usage : ApiUsage := ⟨0, 0, 900, 20240⟩

/-- Two all-fallback refreshes in the same day at different minutes. -/
def refreshA : AssemblerInput :=
  ⟨emptyMarket, emptyCommodities, false, none, none, "2025-05-31 10:15:00"⟩

def refreshB : AssemblerInput :=
  ⟨emptyMarket, emptyCommodities, false, none, none, "2025-05-31 11:47:00"⟩

/-! ### Claim theorems for the assembler and the daily budget -/

/-- Claim C1: for every combination of adapter outcomes in which each Yahoo
fetch either succeeds (full dict) or returns the empty dict (the shape it
returns on failure), and the World Bank fetches return a value or `None`,
the assembled snapshot carries a numeric value for all twenty display
fields, plus `last_updated` and the `data_source` summary. -/
theorem C1_snapshot_all_fields_present (i : AssemblerInput)
    (hm : i.yahooMarket.isFull = true ∨ i.yahooMarket.isEmptyDict = true)
    (hc : i.yahooCommodities.isFull = true
      ∨ i.yahooCommodities.isEmptyDict = true) :
    (get_current_accurate_data i).allRequiredPresent = true
    ∧ (get_current_accurate_data i).last_updated = i.nowString
    ∧ (get_current_accurate_data i).data_source
        = "Multi-source: " ++ joinComma (pySet (sourcesOf i)) := by
  rw [get_current_accurate_data_eq]
  refine ⟨?_, rfl, rfl⟩
  unfold Snapshot.allRequiredPresent
  rcases hm with hm | hm
  · obtain ⟨m1, m2, m3⟩ := market_full_fields _ hm
    have hmne := market_isNonempty_of_isFull _ hm
    rcases hc with hc | hc
    · obtain ⟨c1, c2, c3, c4, c5, c6, c7⟩ := commodity_full_fields _ hc
      have hcne := commodity_isNonempty_of_isFull _ hc
      simp [hmne, hcne, m1, m2, m3, c1, c2, c3, c4, c5, c6, c7, wbField_isSome]
    · have hcne := commodity_not_isNonempty_of_empty _ hc
      simp [hmne, hcne, m1, m2, m3, wbField_isSome]
  · have hmne := market_not_isNonempty_of_empty _ hm
    rcases hc with hc | hc
    · obtain ⟨c1, c2, c3, c4, c5, c6, c7⟩ := commodity_full_fields _ hc
      have hcne := commodity_isNonempty_of_isFull _ hc
      simp [hmne, hcne, c1, c2, c3, c4, c5, c6, c7, wbField_isSome]
    · have hcne := commodity_not_isNonempty_of_empty _ hc
      simp [hmne, hcne, wbField_isSome]

theorem C1_witness :
    (emptyMarket.isFull = true ∨ emptyMarket.isEmptyDict = true)
    ∧ ((get_current_accurate_data allFailInput).allRequiredPresent = true
      ∧ (get_current_accurate_data allFailInput).last_updated
          = allFailInput.nowString
      ∧ (get_current_accurate_data allFailInput).data_source
          = "Multi-source: " ++ joinComma (pySet (sourcesOf allFailInput))) :=
  ⟨Or.inr rfl,
    C1_snapshot_all_fields_present allFailInput (Or.inr rfl) (Or.inr rfl)⟩

/-- Claim C2 counterexample: when the market adapter returns an exchange
rate of 150.0 — outside the plausible band [70, 95] — the assembler accepts
it verbatim into the snapshot and still appends the market source to the
provenance list; no sanity-range check exists on this path. -/
theorem C2_counterexample :
    (get_current_accurate_data c2Input).exchange_rate = some 150
    ∧ "Yahoo Finance (Markets)" ∈ (get_current_accurate_data c2Input).data_sources
    ∧ ¬((70 : ℚ) ≤ 150 ∧ (150 : ℚ) ≤ 95) := by
  rw [get_current_accurate_data_eq]
  refine ⟨?_, ?_, by norm_num⟩
  · simp [c2Input, c2Market, MarketData.isNonempty]
  · simp [sourcesOf, c2Input, c2Market, MarketData.isNonempty]

/-- Claim C2 as amended: the assembler applies no sanity-range check to the
exchange rate — whenever the market adapter's dict contains an
`exchange_rate` value, that value (however implausible) becomes the
snapshot's exchange rate and the market source is appended to the
provenance list. -/
theorem C2_amended_no_sanity_check (i : AssemblerInput) (v : ℚ)
    (h : i.yahooMarket.exchange_rate = some v) :
    (get_current_accurate_data i).exchange_rate = some v
    ∧ "Yahoo Finance (Markets)" ∈ (get_current_accurate_data i).data_sources := by
  have hne : i.yahooMarket.isNonempty = true := by
    simp [MarketData.isNonempty, h]
  rw [get_current_accurate_data_eq]
  constructor
  · simp [hne, h]
  · simp [sourcesOf, hne]

theorem C2_witness :
    (get_current_accurate_data c2Input).exchange_rate = some 150
    ∧ "Yahoo Finance (Markets)" ∈ (get_current_accurate_data c2Input).data_sources :=
  C2_amended_no_sanity_check c2Input 150 rfl

/-- Claim C3 counterexample: with the daily yahoo counter already at 900
(at or beyond every ceiling the spec names), the market fetch still passes
the rate gate, issues its three network requests, returns a full dict
rather than any error value, and pushes the counter to 903 — there is no
fail-closed path and no reset of `last_reset`. -/
theorem C3_counterexample :
    (get_yahoo_finance_data c3Env c3Usage ⟨fun _ => none⟩ 0).networkCalls = 3
    ∧ (get_yahoo_finance_data c3Env c3Usage ⟨fun _ => none⟩ 0).result.isNonempty
        = true
    ∧ (get_yahoo_finance_data c3Env c3Usage ⟨fun _ => none⟩ 0).usage.yahoo_calls
        = 903
    ∧ (get_yahoo_finance_data c3Env c3Usage ⟨fun _ => none⟩ 0).usage.last_reset
        = c3Usage.last_reset :=
  ⟨rfl, rfl, rfl, rfl⟩

/-- Claim C3 as amended: the daily call counters are tracked but never
enforced — a non-raising fetch always issues its three network requests and
increments the counter by three, whatever the counter's current value, and
`last_reset` is never consulted or changed, so the counter never resets on a
date change. -/
theorem C3_amended_no_daily_ceiling (env : YahooMarketEnv) (usage : ApiUsage)
    (rate : RateState) (now : ℚ) (h : env.raises = false) :
    (get_yahoo_finance_data env usage rate now).networkCalls = 3
    ∧ (get_yahoo_finance_data env usage rate now).usage.yahoo_calls
        = usage.yahoo_calls + 3
    ∧ (get_yahoo_finance_data env usage rate now).usage.last_reset
        = usage.last_reset := by
  simp [get_yahoo_finance_data, h]

theorem C3_witness :
    (get_yahoo_finance_data c3Env c3Usage ⟨fun _ => none⟩ 0).networkCalls = 3
    ∧ (get_yahoo_finance_data c3Env c3Usage ⟨fun _ => none⟩ 0).usage.yahoo_calls
        = c3Usage.yahoo_calls + 3
    ∧ (get_yahoo_finance_data c3Env c3Usage ⟨fun _ => none⟩ 0).usage.last_reset
        = c3Usage.last_reset :=
  C3_amended_no_daily_ceiling c3Env c3Usage ⟨fun _ => none⟩ 0 rfl

/-- Claim C4 counterexample: in a run in which no adapter contributed, the
provenance list is not empty (it holds the constant baseline label) and the
`data_source` field is not the label "fallback". -/
theorem C4_counterexample :
    (get_current_accurate_data allFailInput).data_sources ≠ []
    ∧ (get_current_accurate_data allFailInput).data_source ≠ "fallback" := by
  rw [get_current_accurate_data_eq]
  constructor
  · simp [sourcesOf, allFailInput, emptyMarket, emptyCommodities,
      MarketData.isNonempty, CommodityData.isNonempty]
  · decide

/-- Claim C4 as amended: when no adapter contributes, the provenance list is
exactly `['Government Data (May 2025)']` — the baseline label, never the
empty list — and `data_source` reads
`"Multi-source: Government Data (May 2025)"`, not `"fallback"`. -/
theorem C4_amended_provenance (i : AssemblerInput)
    (h1 : i.yahooMarket.isNonempty = false)
    (h2 : i.yahooCommodities.isNonempty = false)
    (h3 : i.wbInflation = none) (h4 : i.wbGdp = none) :
    (get_current_accurate_data i).data_sources = ["Government Data (May 2025)"]
    ∧ (get_current_accurate_data i).data_source
        = "Multi-source: Government Data (May 2025)" := by
  have hs : sourcesOf i = ["Government Data (May 2025)"] := by
    simp [sourcesOf, h1, h2, h3, h4]
  rw [get_current_accurate_data_eq]
  exact ⟨hs, by rw [show ("Multi-source: Government Data (May 2025)" : String)
      = "Multi-source: " ++ joinComma (pySet ["Government Data (May 2025)"])
      from rfl, hs]⟩

theorem C4_witness :
    (get_current_accurate_data allFailInput).data_sources
        = ["Government Data (May 2025)"]
    ∧ (get_current_accurate_data allFailInput).data_source
        = "Multi-source: Government Data (May 2025)" :=
  C4_amended_provenance allFailInput rfl rfl rfl rfl

/-- Claim C5 counterexample: two all-fallback refreshes in the same day at
different wall-clock minutes produce byte-identical numeric fields, each
equal to its bare baseline constant — no hour/minute-derived perturbation is
applied anywhere in the assembler. -/
theorem C5_counterexample :
    refreshA.nowString ≠ refreshB.nowString
    ∧ (get_current_accurate_data refreshA).numericFields
        = (get_current_accurate_data refreshB).numericFields
    ∧ (get_current_accurate_data refreshA).inflation_rate = some (316/100)
    ∧ (get_current_accurate_data refreshA).gold = some (328970/100) := by
  refine ⟨by decide, ?_, ?_, ?_⟩
  · rw [numericFields_of_allFail refreshA rfl rfl rfl rfl,
      numericFields_of_allFail refreshB rfl rfl rfl rfl]
  · rw [get_current_accurate_data_eq]
    simp [refreshA, emptyMarket, MarketData.isNonempty, wbField]
  · rw [get_current_accurate_data_eq]
    simp [refreshA, emptyCommodities, CommodityData.isNonempty]

/-- Claim C5 as amended: a snapshot field that received no live data keeps
exactly its baseline fallback constant — no deterministic perturbation
derived from the hour and minute is applied, so two all-fallback refreshes
in the same day display identical values. -/
theorem C5_amended_no_perturbation (i j : AssemblerInput)
    (hi1 : i.yahooMarket.isNonempty = false)
    (hi2 : i.yahooCommodities.isNonempty = false)
    (hi3 : i.wbInflation = none) (hi4 : i.wbGdp = none)
    (hj1 : j.yahooMarket.isNonempty = false)
    (hj2 : j.yahooCommodities.isNonempty = false)
    (hj3 : j.wbInflation = none) (hj4 : j.wbGdp = none) :
    (get_current_accurate_data i).numericFields = fallbackNumericFields
    ∧ (get_current_accurate_data j).numericFields = fallbackNumericFields
    ∧ (get_current_accurate_data i).numericFields
        = (get_current_accurate_data j).numericFields := by
  have hi := numericFields_of_allFail i hi1 hi2 hi3 hi4
  have hj := numericFields_of_allFail j hj1 hj2 hj3 hj4
  exact ⟨hi, hj, hi.trans hj.symm⟩

theorem C5_witness :
    (get_current_accurate_data refreshA).numericFields = fallbackNumericFields
    ∧ (get_current_accurate_data refreshB).numericFields = fallbackNumericFields
    ∧ (get_current_accurate_data refreshA).numericFields
        = (get_current_accurate_data refreshB).numericFields :=
  C5_amended_no_perturbation refreshA refreshB rfl rfl rfl rfl rfl rfl rfl rfl

/-- Claim C10: a World Bank fetch that returns exactly 0.0 is treated like a
failed fetch even though 0.0 lies inside the sanity band [0, 15]: Python
float truthiness makes the `if wb_inflation and ...` guard false, so the
baseline value is kept and the World Bank source is not appended to the
provenance list; likewise for the GDP fetch. -/
theorem C10_wb_zero_rejected (i : AssemblerInput) :
    ((get_current_accurate_data { i with wbInflation := some 0 }).inflation_rate
        = some (316/100)
      ∧ "World Bank (Inflation)"
          ∉ (get_current_accurate_data { i with wbInflation := some 0 }).data_sources)
    ∧ ((get_current_accurate_data { i with wbGdp := some 0 }).gdp_growth_rate
        = some (65/10)
      ∧ "World Bank (GDP)"
          ∉ (get_current_accurate_data { i with wbGdp := some 0 }).data_sources) := by
  refine ⟨⟨?_, ?_⟩, ⟨?_, ?_⟩⟩
  · rw [get_current_accurate_data_eq]
    simp [wbField]
  · rw [get_current_accurate_data_eq]
    unfold sourcesOf
    rcases hwg : i.wbGdp with _ | x <;>
      cases hm : i.yahooMarket.isNonempty <;>
        cases hcn : i.yahooCommodities.isNonempty <;>
          cases hwk : i.isWeekend <;>
            simp_all
  · rw [get_current_accurate_data_eq]
    simp [wbField]
  · rw [get_current_accurate_data_eq]
    unfold sourcesOf
    rcases hwi : i.wbInflation with _ | x <;>
      cases hm : i.yahooMarket.isNonempty <;>
        cases hcn : i.yahooCommodities.isNonempty <;>
          cases hwk : i.isWeekend <;>
            simp_all

end Dashboard
